import Mathlib

/-!
Verification of the GSF spreadsheet viewer/editor core (App.tsx and the
DataTable component): the filter → sort → paginate view pipeline, the
pagination arithmetic, the view-state machine of the table, and the
optimistic-edit coordinator `handleStatusChange` with its pending-update
map.  Strings are modelled as `String` / `List Char` with explicit
ASCII-level helpers mirroring the JavaScript string operations used by
the source (`toLowerCase`, `trim`, `split(/\s+/)`, `split(':')`,
`includes`, `startsWith`, `endsWith`, `/^\d+$/`).
-/

/-- JavaScript `toLowerCase`, per character (source strings are ASCII). -/
def lowerStr (s : List Char) : List Char := s.map Char.toLower

/-- JavaScript `trim`: drop whitespace from both ends. -/
def trimStr (s : List Char) : List Char :=
  ((s.dropWhile Char.isWhitespace).reverse.dropWhile Char.isWhitespace).reverse

/-- Accumulator loop for `splitWs`. -/
def splitWsAux : List Char → List Char → List (List Char)
  | [], acc => if acc = [] then [] else [acc.reverse]
  | c :: cs, acc =>
    if c.isWhitespace then
      if acc = [] then splitWsAux cs [] else acc.reverse :: splitWsAux cs []
    else splitWsAux cs (c :: acc)

/-- JavaScript `split(/\s+/)` on a trimmed string: maximal runs of
non-whitespace characters. -/
def splitWs (s : List Char) : List (List Char) := splitWsAux s []

/-- Accumulator loop for `splitColon`. -/
def splitColonAux : List Char → List Char → List (List Char)
  | [], acc => [acc.reverse]
  | c :: cs, acc =>
    if c = ':' then acc.reverse :: splitColonAux cs [] else splitColonAux cs (c :: acc)

/-- JavaScript `split(':')`: always yields at least one segment; a string
containing a colon yields at least two. -/
def splitColon (s : List Char) : List (List Char) := splitColonAux s []

/-- JavaScript `startsWith` on character lists. -/
def startsWithL : List Char → List Char → Bool
  | _, [] => true
  | [], _ :: _ => false
  | a :: as, b :: bs => a = b && startsWithL as bs

/-- JavaScript `includes` (substring containment) on character lists. -/
def containsSub : List Char → List Char → Bool
  | [], t => t.isEmpty
  | a :: as, t => startsWithL (a :: as) t || containsSub as t

/-- JavaScript `endsWith` on character lists. -/
def endsWithL (s t : List Char) : Bool := startsWithL s.reverse t.reverse

/-- The regular expression `/^\d+$/`: one or more decimal digits. -/
def isDigits (s : List Char) : Bool := !s.isEmpty && s.all Char.isDigit

/-- Character list of a string literal. -/
def chars (s : String) : List Char := s.toList

/-- JavaScript `toLowerCase` at `String` level. -/
def lowerString (s : String) : String := ⟨lowerStr s.toList⟩

/-- A row of the sheet.  Field names follow the source's `SheetRow`; the
field set and order {msisdn, assignDate, category, owner,
statusByCallCenter} follow the spec's enumerated schema (the `types.ts`
declaration itself is not among the provided sources).  `msisdn` is kept
in its string form, matching the pervasive `String(row.msisdn)`
conversions in the source. -/
structure SheetRow where
  msisdn : String
  assignDate : String
  category : String
  owner : String
  statusByCallCenter : String
deriving DecidableEq

/-- JavaScript `Object.values(row)` in field order, as strings. -/
def rowValues (row : SheetRow) : List (List Char) :=
  [row.msisdn.toList, row.assignDate.toList, row.category.toList,
   row.owner.toList, row.statusByCallCenter.toList]

/-- `formatMsisdn` from DataTable: strip the `971` country code and
re-add a leading zero. -/
def formatMsisdn (m : List Char) : List Char :=
  if startsWithL m ['9', '7', '1'] then '0' :: m.drop 3 else m

/-- `formatMsisdn` at `String` level. -/
def formatMsisdnS (s : String) : String := ⟨formatMsisdn s.toList⟩

/-- The `term.includes(':')` branch of the term matcher: split the term
on `':'`, trim both parts (terms carry no whitespace, so the `trim` is
the identity, kept for fidelity), reject if either part is empty, else
require the lowercased category to contain the category part and the raw
msisdn to contain the number part. -/
def colonMatch (row : SheetRow) (term : List Char) : Bool :=
  let parts := (splitColon term).map trimStr
  let categorySearch := parts.headD []
  let numberSearch := (parts.drop 1).headD []
  if categorySearch.isEmpty || numberSearch.isEmpty then false
  else containsSub (lowerStr row.category.toList) categorySearch
        && containsSub row.msisdn.toList numberSearch

/-- The per-term matcher of `filteredData` after the query-level "end"
check: colon terms, then the all-digits early `return true`, then the
category / msisdn / any-field fallbacks, in source order. -/
def regularMatch (row : SheetRow) (term : List Char) : Bool :=
  if term.contains ':' then colonMatch row term
  else if isDigits term && containsSub row.msisdn.toList term then true
  else if containsSub (lowerStr row.category.toList) term then true
  else if containsSub row.msisdn.toList term then true
  else (rowValues row).any fun v => containsSub (lowerStr v) term

/-- The literal token `"end"` of the suffix-search shorthand. -/
def endTok : List Char := ['e', 'n', 'd']

/-- One term of the conjunctive matcher.  The "end" check inspects the
whole term list (a query-level mode): when the last token is `end` and
the remaining tokens concatenate to digits, every term evaluates to the
same suffix test on the canonicalized msisdn; otherwise the term is
matched by `regularMatch`. -/
def rowMatchesTerm (terms : List (List Char)) (row : SheetRow) (term : List Char) : Bool :=
  if 2 ≤ terms.length ∧ terms.getLast? = some endTok then
    if isDigits terms.dropLast.flatten then
      endsWithL (formatMsisdn row.msisdn.toList) terms.dropLast.flatten
    else regularMatch row term
  else regularMatch row term

/-- A row matches a query iff it matches every term (`searchTerms.every`). -/
def rowMatches (terms : List (List Char)) (row : SheetRow) : Bool :=
  terms.all (rowMatchesTerm terms row)

/-- `filteredData` from DataTable: empty (post-trim) query returns the
data unchanged; otherwise the query is lowercased, trimmed, split on
whitespace and rows are kept iff they match every term. -/
def filteredData (search : String) (data : List SheetRow) : List SheetRow :=
  if (trimStr search.toList).isEmpty then data
  else data.filter (rowMatches (splitWs (trimStr (lowerStr search.toList))))

/-- `totalPages` from DataTable:
`pageSize === -1 ? 1 : Math.ceil(displayData.length / pageSize)`.
`Math.ceil (a / b)` on exact division is `-⌊-a / b⌋`, written with the
floor division `Int.fdiv` (for `pageSize = 0`, unreachable from the UI's
page-size choices {10, 20, 50, 100, -1}, `fdiv _ 0 = 0`). -/
def totalPages (len : Nat) (pageSize : Int) : Int :=
  if pageSize = -1 then 1 else -((-(len : Int)).fdiv pageSize)

/-- `paginatedData` from DataTable: the unbounded sentinel `-1` yields
all rows, otherwise
`displayData.slice((currentPage - 1) * pageSize, currentPage * pageSize)`,
i.e. drop `(currentPage - 1) * pageSize` rows then take `pageSize`. -/
def paginatedData (rows : List SheetRow) (pageSize currentPage : Int) : List SheetRow :=
  if pageSize = -1 then rows
  else (rows.drop ((currentPage - 1) * pageSize).toNat).take pageSize.toNat

/-- The DataTable component state: the five `useState` hooks
(`search`, `sortField`, `sortDirection`, `pageSize`, `currentPage`)
plus the `data` prop it receives.  The sort field is modelled as an
index into the row schema; sorting permutes `displayData` but never
changes its length, so the pagination arithmetic below only consumes
the filtered count. -/
structure ViewSt where
  searchQ : String
  sortField : Option Nat
  sortAsc : Bool
  pageSizeV : Int
  currentPage : Int
  dataV : List SheetRow
deriving DecidableEq

/-- User intents and prop changes that drive the DataTable state:
typing in the search box, choosing a page size, clicking a column
header, the two pager buttons, and the parent replacing the `data`
prop on a refresh. -/
inductive ViewEv where
  | setSearch (q : String)
  | setPageSize (n : Int)
  | sortClick (f : Nat)
  | prevPage
  | nextPage
  | setData (rows : List SheetRow)
deriving DecidableEq

/-- Number of rows surviving the filter (sorting preserves it). -/
def filteredCount (s : ViewSt) : Nat := (filteredData s.searchQ s.dataV).length

/-- The `totalPages` value the component derives from its state. -/
def stTotalPages (s : ViewSt) : Int := totalPages (filteredCount s) s.pageSizeV

/-- One step of the DataTable state machine.  Search input and the
page-size select both call `setCurrentPage(1)` alongside their own
update; a header click toggles or sets the sort; the pager buttons are
rendered only for a bounded page size and are disabled at
`currentPage === 1` (prev) and `currentPage === totalPages` (next); a
new `data` prop changes nothing else. -/
def stepView (s : ViewSt) (e : ViewEv) : ViewSt :=
  match e with
  | .setSearch q => { s with searchQ := q, currentPage := 1 }
  | .setPageSize n => { s with pageSizeV := n, currentPage := 1 }
  | .sortClick f =>
      if s.sortField = some f then { s with sortAsc := !s.sortAsc }
      else { s with sortField := some f, sortAsc := true }
  | .prevPage =>
      if s.pageSizeV = -1 then s
      else if s.currentPage = 1 then s
      else { s with currentPage := max 1 (s.currentPage - 1) }
  | .nextPage =>
      if s.pageSizeV = -1 then s
      else if s.currentPage = stTotalPages s then s
      else { s with currentPage := min (stTotalPages s) (s.currentPage + 1) }
  | .setData rows => { s with dataV := rows }

/-- The component's initial state for a given `data` prop: empty
search, no sort, page size 10, page 1. -/
def initView (rows : List SheetRow) : ViewSt :=
  { searchQ := "", sortField := none, sortAsc := true, pageSizeV := 10,
    currentPage := 1, dataV := rows }

/-- Run a sequence of events from a state. -/
def runView (s : ViewSt) (evs : List ViewEv) : ViewSt := evs.foldl stepView s

/-- Observable side effects of `handleStatusChange` in App.tsx, in the
order they are issued: the remote `updateStatus` call, the follow-up
`loadData()` refresh, the toast notifications and the error banner. -/
inductive Eff where
  | netUpdate (rowIndex : Nat) (newStatus : String)
  | refreshReq
  | toastSuccess (msg : String)
  | toastError (msg : String)
  | errBanner (msg : String)
deriving DecidableEq

/-- Recognizes a failure notification. -/
def isErrToast : Eff → Bool
  | .toastError _ => true
  | _ => false

/-- The App state touched by `handleStatusChange`: the `data` row
collection and the `pendingUpdates` map.  The map is modelled as an
association list (JavaScript `Map` iteration order is insertion order;
only presence and values matter here). -/
structure AppSt where
  dataA : List SheetRow
  pendingUpdates : List (String × Bool)
deriving DecidableEq

/-- JavaScript `Map.get`: the value at the key, if present. -/
def mapGet (m : List (String × Bool)) (k : String) : Option Bool :=
  (m.find? fun p => p.1 = k).map fun p => p.2

/-- JavaScript `Map.set`: overwrite an existing entry or append. -/
def mapSet (m : List (String × Bool)) (k : String) (v : Bool) : List (String × Bool) :=
  if m.any (fun p => p.1 = k) then m.map fun p => if p.1 = k then (k, v) else p
  else m ++ [(k, v)]

/-- JavaScript `Map.delete`: drop the entry at the key. -/
def mapDel (m : List (String × Bool)) (k : String) : List (String × Bool) :=
  m.filter fun p => p.1 ≠ k

/-- The composite update key `${row.msisdn}-${row.assignDate}`. -/
def updateKeyOf (row : SheetRow) : String := row.msisdn ++ "-" ++ row.assignDate

/-- `handleStatusChange` from App.tsx as a state transformer with an
effect log.  `remoteOk` is the outcome of the awaited `updateStatus`
call and `snapshot` the collection a successful follow-up `loadData()`
installs (on the success path `loadData` is awaited, replaces `data`
wholesale and clears `pendingUpdates`; on the failure path `loadData()`
is fired without `await`, so the returned state is the one left by the
catch block itself).  Guards in source order: a missing row returns
immediately; a truthy pending entry for the key returns immediately;
otherwise the key is marked pending, the row's status is optimistically
set, and the remote call decides between the success and the
rollback path. -/
def handleStatusChange (s : AppSt) (rowIndex : Nat) (newStatus : String)
    (remoteOk : Bool) (snapshot : List SheetRow) : AppSt × List Eff :=
  match s.dataA.get? rowIndex with
  | none => (s, [])
  | some row =>
    let updateKey := updateKeyOf row
    if mapGet s.pendingUpdates updateKey = some true then (s, [])
    else
      let pending1 := mapSet s.pendingUpdates updateKey true
      let data1 := s.dataA.set rowIndex { row with statusByCallCenter := newStatus }
      if remoteOk then
        ({ dataA := snapshot, pendingUpdates := [] },
         [Eff.netUpdate rowIndex newStatus, Eff.refreshReq,
          Eff.toastSuccess ("Number " ++ row.msisdn ++ " has been " ++ lowerString newStatus)])
      else
        let pending2 := mapDel pending1 updateKey
        let cur := (data1.get? rowIndex).getD row
        let data2 := data1.set rowIndex { cur with statusByCallCenter := row.statusByCallCenter }
        (⟨data2, pending2⟩,
         [Eff.netUpdate rowIndex newStatus,
          Eff.errBanner "Failed to update status. Please try again.",
          Eff.toastError "Failed to update status", Eff.refreshReq])

/-- Sample row with category Marketing (spec's search example). -/
def rowMkt : SheetRow := ⟨"9715551234", "2024-01-01", "Marketing", "Alice", "Open"⟩

/-- Sample row with category Sales and the same msisdn. -/
def rowSls : SheetRow := ⟨"9715551234", "2024-01-02", "Sales", "Bob", "Open"⟩

/-- Sample row whose canonicalized msisdn does not end in 1234. -/
def rowEnd2 : SheetRow := ⟨"9715559999", "2024-01-04", "Sales", "Dan", "Open"⟩

/-- Sample row whose assignDate (but not msisdn) contains the digits 2024. -/
def rowDate : SheetRow := ⟨"9715551234", "2024-01-05", "Sales", "Omar", "Open"⟩

/-- App state with no rows and no pending updates. -/
def emptyApp : AppSt := ⟨[], []⟩

/-- App state whose single row already has a pending update. -/
def pendApp : AppSt := ⟨[rowMkt], [("9715551234-2024-01-01", true)]⟩

/-- App state with a single row and no pending updates. -/
def freshApp : AppSt := ⟨[rowMkt], []⟩

/-- Twenty-five identical rows (spec's pagination example). -/
def rows25 : List SheetRow := List.replicate 25 rowSls

/-- Five identical rows (a shrunken refresh snapshot). -/
def rows5 : List SheetRow := List.replicate 5 rowSls

/-- Filtering by the same predicate twice equals filtering once. -/
theorem filter_idem {α : Type} (p : α → Bool) (l : List α) :
    (l.filter p).filter p = l.filter p := by
  induction l with
  | nil => rfl
  | cons a t ih =>
    by_cases h : p a = true
    · simp [List.filter_cons, h, ih]
    · simp [List.filter_cons, h, ih]

/-- A nonempty list is not `isEmpty`. -/
theorem isEmpty_false_of_ne_nil {α : Type} {l : List α} (h : l ≠ []) :
    l.isEmpty = false := by
  cases l with
  | nil => exact absurd rfl h
  | cons a t => rfl

/-- `all` over a nonempty list of a pointwise-constant predicate is that
constant. -/
theorem all_of_forall_eq {α : Type} (l : List α) (f : α → Bool) (b : Bool)
    (h : ∀ t, f t = b) (hne : l ≠ []) : l.all f = b := by
  cases l with
  | nil => exact absurd rfl hne
  | cons a t =>
    cases hb : b with
    | false => simp only [List.all_cons, h a, hb, Bool.false_and]
    | true =>
      simp only [List.all_eq_true]
      intro x _
      rw [h x, hb]

/-- Whitespace characters are toLower-fixed. -/
theorem ws_toLower (c : Char) (h : c.isWhitespace = true) : c.toLower = c := by
  simp only [Char.isWhitespace, Bool.or_eq_true, decide_eq_true_eq] at h
  rcases h with ((h | h) | h) | h <;> subst h <;> decide

/-- A string whose trim is empty is all whitespace. -/
theorem all_ws_of_trimStr_eq_nil {l : List Char} (h : trimStr l = []) :
    ∀ c ∈ l, c.isWhitespace = true := by
  unfold trimStr at h
  rw [List.reverse_eq_nil_iff, List.dropWhile_eq_nil_iff] at h
  intro c hc
  have hsplit : List.takeWhile Char.isWhitespace l ++ List.dropWhile Char.isWhitespace l = l :=
    List.takeWhile_append_dropWhile Char.isWhitespace l
  rw [← hsplit] at hc
  rcases List.mem_append.mp hc with hc' | hc'
  · exact List.mem_takeWhile_imp hc'
  · exact h c (List.mem_reverse.mpr hc')

/-- `find?` never hits a key that `mapDel` removed. -/
theorem mapGet_mapDel (m : List (String × Bool)) (k : String) :
    mapGet (mapDel m k) k = none := by
  induction m with
  | nil => rfl
  | cons a t ih =>
    by_cases h : a.1 = k
    · have hd : mapDel (a :: t) k = mapDel t k := by
        simp [mapDel, List.filter_cons, h]
      rw [hd]
      exact ih
    · have hd : mapDel (a :: t) k = a :: mapDel t k := by
        simp [mapDel, List.filter_cons, h]
      rw [hd]
      have hfind : mapGet (a :: mapDel t k) k = mapGet (mapDel t k) k := by
        simp only [mapGet]
        rw [List.find?_cons_of_neg]
        simp [h]
      rw [hfind]
      exact ih

/-- C9: the phone-number canonicalization `formatMsisdn` is idempotent
on every string, and the specific input "9715551234" canonicalizes to
"05551234". -/
theorem C9_formatMsisdn_idempotent :
    (∀ m : List Char, formatMsisdn (formatMsisdn m) = formatMsisdn m) ∧
      formatMsisdnS "9715551234" = "05551234" := by
  refine ⟨fun m => ?_, by decide⟩
  unfold formatMsisdn
  by_cases h : startsWithL m ['9', '7', '1'] = true
  · have h2 : ¬ startsWithL ('0' :: m.drop 3) ['9', '7', '1'] = true := by
      simp [startsWithL]
    rw [if_pos h, if_neg h2]
  · rw [if_neg h, if_neg h]

/-- C8: for every query and row list, the filter stage is idempotent:
filtering the filtered result by the same query yields the same list. -/
theorem C8_filter_idempotent (q : String) (R : List SheetRow) :
    filteredData q (filteredData q R) = filteredData q R := by
  unfold filteredData
  by_cases h : (trimStr q.toList).isEmpty = true
  · rw [if_pos h, if_pos h]
  · rw [if_neg h, if_neg h]
    exact filter_idem _ R

/-- C10: calling the edit handler with a row index that has no row in
the current collection returns immediately: the state is unchanged and
no effect (no pending entry, no network call) is issued. -/
theorem C10_out_of_bounds_noop (s : AppSt) (i : Nat) (ns : String) (ok : Bool)
    (snap : List SheetRow) (h : s.dataA.get? i = none) :
    handleStatusChange s i ns ok snap = (s, []) := by
  unfold handleStatusChange
  rw [h]

/-- C10 witness: index 3 of an empty collection. -/
theorem C10_out_of_bounds_noop_w :
    handleStatusChange emptyApp 3 "Open" true [] = (emptyApp, []) :=
  C10_out_of_bounds_noop emptyApp 3 "Open" true [] (by decide)

/-- C2: submitting an edit whose composite key already has a pending
entry is a no-op: state unchanged, no effects, no second network call. -/
theorem C2_pending_noop (s : AppSt) (i : Nat) (ns : String) (ok : Bool)
    (snap : List SheetRow) (row : SheetRow)
    (hrow : s.dataA.get? i = some row)
    (hpend : mapGet s.pendingUpdates (updateKeyOf row) = some true) :
    handleStatusChange s i ns ok snap = (s, []) := by
  unfold handleStatusChange
  rw [hrow]
  simp only [hpend, if_pos]

/-- C2 witness: the single row of `pendApp` is already pending. -/
theorem C2_pending_noop_w :
    handleStatusChange pendApp 0 "Reserved" true [] = (pendApp, []) :=
  C2_pending_noop pendApp 0 "Reserved" true [] rowMkt (by decide) (by decide)

/-- C4 counterexample: the claim says a digit-only term matches iff the
raw phone number contains it.  But the source's digit branch only
returns early on success and otherwise falls through to the generic
field matching: the query "2024" keeps `rowDate`, whose msisdn does not
contain "2024" (its assignDate does), so the claim is false. -/
theorem C4_counterexample :
    rowDate ∈ filteredData "2024" [rowDate]
      ∧ containsSub rowDate.msisdn.toList (chars "2024") = false := by
  constructor
  · decide
  · decide

/-- C4 amended: outside the "end" suffix mode, a digit-only term matches
a row iff the raw phone number contains it OR the lowercased category
contains it OR some field's lowercased string form contains it (the
digit test only adds an early success, never an early failure). -/
theorem C4_digit_term_fallback (row : SheetRow) (term : List Char)
    (h1 : term.contains ':' = false) (h2 : isDigits term = true) :
    regularMatch row term =
      (containsSub row.msisdn.toList term
        || containsSub (lowerStr row.category.toList) term
        || (rowValues row).any fun v => containsSub (lowerStr v) term) := by
  simp only [regularMatch]
  rw [if_neg (fun hh => by rw [h1] at hh; exact Bool.false_ne_true hh)]
  rw [h2, Bool.true_and]
  by_cases hm : containsSub row.msisdn.toList term = true
  · rw [if_pos hm, hm, Bool.true_or, Bool.true_or]
  · rw [if_neg hm, Bool.eq_false_iff.mpr hm, Bool.false_or]
    by_cases hc : containsSub (lowerStr row.category.toList) term = true
    · rw [if_pos hc, hc, Bool.true_or]
    · rw [if_neg hc, Bool.eq_false_iff.mpr hc, Bool.false_or]
      rw [if_neg (by decide : ¬ (false = true))]

/-- C4 witness: the term "2024" against `rowDate` evaluates through the
amended characterization to a match (via the assignDate field). -/
theorem C4_digit_term_fallback_w :
    regularMatch rowDate (chars "2024") = true := by
  rw [C4_digit_term_fallback rowDate (chars "2024") (by decide) (by decide)]
  decide

/-- C5 counterexample: the claim quantifies over every term containing
':' and asserts match iff category contains the category-part and the
msisdn contains the number-part.  For the term "marketing:" the
number-part is empty, so both containments hold for `rowMkt`
(containment of the empty string is true), yet the source's
`if (!categorySearch || !numberSearch) return false` guard rejects the
row: the query "marketing:" filters `rowMkt` out. -/
theorem C5_counterexample :
    filteredData "marketing:" [rowMkt] = []
      ∧ containsSub (lowerStr rowMkt.category.toList) (chars "marketing") = true
      ∧ containsSub rowMkt.msisdn.toList [] = true := by
  refine ⟨by decide, by decide, by decide⟩

/-- C5 amended: for a term containing ':', the source splits on ':' and
uses the first two (trimmed) segments; when both are nonempty, a row
matches iff the lowercased category contains the first segment and the
raw msisdn contains the second; when either segment is empty the term
matches no row (shown by the counterexample). -/
theorem C5_colon_term_match (row : SheetRow) (term : List Char)
    (h : term.contains ':' = true)
    (hc : ((splitColon term).map trimStr).headD [] ≠ [])
    (hn : (((splitColon term).map trimStr).drop 1).headD [] ≠ []) :
    regularMatch row term =
      (containsSub (lowerStr row.category.toList) (((splitColon term).map trimStr).headD [])
        && containsSub row.msisdn.toList
            ((((splitColon term).map trimStr).drop 1).headD [])) := by
  simp only [regularMatch, colonMatch]
  rw [if_pos h, isEmpty_false_of_ne_nil hc, isEmpty_false_of_ne_nil hn]
  rw [if_neg (by decide)]

/-- C5 witness: "marketing:555" matches the Marketing row and not the
Sales row with the same number. -/
theorem C5_colon_term_match_w :
    regularMatch rowMkt (chars "marketing:555") = true
      ∧ regularMatch rowSls (chars "marketing:555") = false := by
  constructor
  · rw [C5_colon_term_match rowMkt (chars "marketing:555") (by decide) (by decide) (by decide)]
    decide
  · rw [C5_colon_term_match rowSls (chars "marketing:555") (by decide) (by decide) (by decide)]
    decide

/-- The failure path of `handleStatusChange` in closed form: the
optimistic write followed by the rollback restores the original row, the
pending entry is marked then deleted, and the effect log carries the
network call, the error banner, one failure toast and the follow-up
refresh. -/
theorem handleStatusChange_failure_eq (s : AppSt) (i : Nat) (ns : String)
    (snap : List SheetRow) (row : SheetRow) (hrow : s.dataA.get? i = some row)
    (hpend : ¬ mapGet s.pendingUpdates (updateKeyOf row) = some true) :
    handleStatusChange s i ns false snap =
      (⟨s.dataA.set i row,
        mapDel (mapSet s.pendingUpdates (updateKeyOf row) true) (updateKeyOf row)⟩,
       [Eff.netUpdate i ns,
        Eff.errBanner "Failed to update status. Please try again.",
        Eff.toastError "Failed to update status", Eff.refreshReq]) := by
  have hlen : i < s.dataA.length := (List.get?_eq_some.mp hrow).1
  have hget1 : (s.dataA.set i { row with statusByCallCenter := ns }).get? i
      = some { row with statusByCallCenter := ns } :=
    List.get?_set_eq_of_lt { row with statusByCallCenter := ns } hlen
  unfold handleStatusChange
  rw [hrow]
  dsimp only
  rw [if_neg hpend, if_neg (by decide : ¬ (false = true))]
  rw [hget1, List.set_set]
  rfl

/-- C1: when the remote update call fails, the coordinator clears the
pending flag for the row's composite key, reverts the row (hence its
status field) in the in-memory collection to its captured pre-edit
value, emits exactly one failure notification, and triggers a follow-up
refresh. -/
theorem C1_failure_rollback (s : AppSt) (i : Nat) (ns : String) (snap : List SheetRow)
    (row : SheetRow) (hrow : s.dataA.get? i = some row)
    (hpend : ¬ mapGet s.pendingUpdates (updateKeyOf row) = some true) :
    (handleStatusChange s i ns false snap).1.dataA.get? i = some row
    ∧ mapGet (handleStatusChange s i ns false snap).1.pendingUpdates (updateKeyOf row) = none
    ∧ (handleStatusChange s i ns false snap).2.countP isErrToast = 1
    ∧ Eff.refreshReq ∈ (handleStatusChange s i ns false snap).2 := by
  have hlen : i < s.dataA.length := (List.get?_eq_some.mp hrow).1
  rw [handleStatusChange_failure_eq s i ns snap row hrow hpend]
  refine ⟨List.get?_set_eq_of_lt row hlen, mapGet_mapDel _ _, ?_, ?_⟩
  · simp [List.countP_cons, isErrToast]
  · simp

/-- C1 witness: a failing edit on the single fresh row of `freshApp`. -/
theorem C1_failure_rollback_w :
    (handleStatusChange freshApp 0 "Reserved" false []).1.dataA.get? 0 = some rowMkt
    ∧ mapGet (handleStatusChange freshApp 0 "Reserved" false []).1.pendingUpdates
        (updateKeyOf rowMkt) = none
    ∧ (handleStatusChange freshApp 0 "Reserved" false []).2.countP isErrToast = 1
    ∧ Eff.refreshReq ∈ (handleStatusChange freshApp 0 "Reserved" false []).2 :=
  C1_failure_rollback freshApp 0 "Reserved" [] rowMkt (by decide) (by decide)

/-- C3 counterexample: for zero filtered rows and page size 10 the
source computes `Math.ceil(0 / 10) = 0` total pages; the claimed
minimum of 1 does not hold. -/
theorem C3_counterexample : totalPages 0 10 = 0 ∧ ¬ 1 ≤ totalPages 0 10 :=
  ⟨by decide, by decide⟩

/-- C3 amended: `totalPages` is exactly `ceil(n / s)` with no minimum-1
clamp (it is 0 when the filtered count is 0), characterized by
`s * (t - 1) < n ≤ s * t`; for a bounded positive page size, page `k`
contains exactly the rows at positions `(k-1)*s .. k*s-1`; the
unbounded sentinel yields one page containing all rows. -/
theorem C3_pagination (n : Nat) (s : Int) (hs : 0 < s) (rows : List SheetRow) (k : Int)
    (hk : 1 ≤ k) :
    (s * (totalPages n s - 1) < n ∧ (n : Int) ≤ s * totalPages n s)
    ∧ (∀ i : Nat, i < s.toNat →
        (paginatedData rows s k).get? i = rows.get? (((k - 1) * s).toNat + i))
    ∧ (∀ i : Nat, s.toNat ≤ i → (paginatedData rows s k).get? i = none)
    ∧ totalPages rows.length (-1) = 1
    ∧ paginatedData rows (-1) k = rows := by
  have hsne : s ≠ -1 := by omega
  refine ⟨?_, ?_, ?_, by simp [totalPages], by simp [paginatedData]⟩
  · unfold totalPages
    rw [if_neg hsne, Int.fdiv_eq_ediv _ (le_of_lt hs)]
    have h1 := Int.ediv_add_emod (-(n : Int)) s
    have h2 := Int.emod_nonneg (-(n : Int)) (by omega : s ≠ 0)
    have h3 := Int.lt_ediv_add_one_mul_self (-(n : Int)) hs
    constructor
    · linarith
    · linarith
  · intro i hi
    unfold paginatedData
    rw [if_neg hsne, List.get?_take hi, List.get?_drop]
  · intro i hi
    unfold paginatedData
    rw [if_neg hsne]
    refine List.get?_len_le (le_trans ?_ hi)
    rw [List.length_take]
    exact Nat.min_le_left _ _

/-- C3 witness: the spec's own example, 25 rows at page size 10: page 3
starts at position 20, has nothing at display position 12, and the
ceiling bounds pin three total pages; the sentinel yields all rows. -/
theorem C3_pagination_w :
    (10 * (totalPages 25 10 - 1) < 25 ∧ (25 : Int) ≤ 10 * totalPages 25 10)
    ∧ (paginatedData rows25 10 3).get? 0 = rows25.get? ((((3 : Int) - 1) * 10).toNat + 0)
    ∧ (paginatedData rows25 10 3).get? 12 = none
    ∧ totalPages rows25.length (-1) = 1
    ∧ paginatedData rows25 (-1) 3 = rows25 := by
  have h := C3_pagination 25 10 (by decide) rows25 3 (by decide)
  exact ⟨h.1, h.2.1 0 (by decide), h.2.2.1 12 (by decide), h.2.2.2.1, h.2.2.2.2⟩

/-- C6: when the last whitespace token of the (lowercased, trimmed)
query is the literal "end" and the remaining tokens concatenate to a
digit-only string, the filter keeps exactly the rows whose canonicalized
phone number ends with that digit string, regardless of any other
field. -/
theorem C6_suffix_mode (q : String) (rows : List SheetRow) (ts : List (List Char))
    (h1 : splitWs (trimStr (lowerStr q.toList)) = ts ++ [endTok])
    (h2 : isDigits ts.flatten = true) :
    filteredData q rows
      = rows.filter fun row => endsWithL (formatMsisdn row.msisdn.toList) ts.flatten := by
  have hts : ts ≠ [] := by
    intro hnil
    rw [hnil] at h2
    exact absurd h2 (by decide)
  have hg : ¬ (trimStr q.toList).isEmpty = true := by
    intro hemp
    have hnil : trimStr q.toList = [] := by
      cases htr : trimStr q.toList with
      | nil => rfl
      | cons a t => rw [htr] at hemp; exact absurd hemp (by simp)
    have hws := all_ws_of_trimStr_eq_nil hnil
    have hlow : lowerStr q.toList = q.toList := by
      unfold lowerStr
      have hfix : ∀ c ∈ q.toList, Char.toLower c = c := fun c hc => ws_toLower c (hws c hc)
      rw [List.map_congr_left hfix, List.map_id']
    have hsw : splitWs (trimStr (lowerStr q.toList)) = [] := by
      rw [hlow, hnil]
      rfl
    rw [hsw] at h1
    simp at h1
  unfold filteredData
  rw [if_neg hg, h1]
  apply List.filter_congr
  intro row _
  unfold rowMatches
  have hcond : 2 ≤ (ts ++ [endTok]).length ∧ (ts ++ [endTok]).getLast? = some endTok := by
    refine ⟨?_, List.getLast?_concat _⟩
    rw [List.length_append]
    cases ts with
    | nil => exact absurd rfl hts
    | cons a t => simp only [List.length_cons, List.length_singleton]; omega
  have hdl : (ts ++ [endTok]).dropLast = ts := List.dropLast_concat
  apply all_of_forall_eq
  · intro t
    unfold rowMatchesTerm
    rw [if_pos hcond, hdl, if_pos h2]
  · simp

/-- C6 witness: the query "1234 end" keeps the row canonicalizing to
"05551234" and drops the one canonicalizing to "05559999". -/
theorem C6_suffix_mode_w :
    filteredData "1234 end" [rowMkt, rowEnd2] = [rowMkt] := by
  rw [C6_suffix_mode "1234 end" [rowMkt, rowEnd2] [chars "1234"] (by decide) (by decide)]
  decide

/-- C7 counterexample: starting from 25 rows at page size 10, paging to
page 3 and then receiving a shrunken refresh snapshot of 5 rows leaves
the page index at 3 while max(1, ceil(5 / 10)) = 1: nothing in the
component clamps the page index when the `data` prop changes, so the
claimed lifetime invariant fails. -/
theorem C7_counterexample :
    (runView (initView rows25)
        [ViewEv.nextPage, ViewEv.nextPage, ViewEv.setData rows5]).currentPage = 3
    ∧ max 1 (stTotalPages (runView (initView rows25)
        [ViewEv.nextPage, ViewEv.nextPage, ViewEv.setData rows5])) = 1
    ∧ ¬ (runView (initView rows25)
          [ViewEv.nextPage, ViewEv.nextPage, ViewEv.setData rows5]).currentPage
        ≤ max 1 (stTotalPages (runView (initView rows25)
          [ViewEv.nextPage, ViewEv.nextPage, ViewEv.setData rows5])) :=
  ⟨by decide, by decide, by decide⟩

/-- C7 amended: the page index starts at 1 and every search-query or
page-size change resets it to 1; the claimed containment of the page
index in [1, max(1, ceil(count / pageSize))] at every point of the
lifetime does not hold (the counterexample shows a data refresh that
shrinks the collection leaving the page index beyond the last page). -/
theorem C7_reset_to_first_page (s : ViewSt) (q : String) (n : Int) (rows : List SheetRow) :
    (stepView s (ViewEv.setSearch q)).currentPage = 1
    ∧ (stepView s (ViewEv.setPageSize n)).currentPage = 1
    ∧ (initView rows).currentPage = 1 :=
  ⟨rfl, rfl, rfl⟩
